import Mathlib

/-!
Verification development for the CNOPS → RxNorm mapping resolver
(`src/mapper/core_mapper.py`).

The resolver is shallowly embedded as pure Lean functions:

* Python dataclass `MappingResult` becomes a structure.  Confidence
  scores — Python floats whose reachable values are tiny rationals built
  from 0.9, 0.8, 0.6, the flat +0.1 bonus and products with the
  configured penalty factors — are modelled by `PyRat`, an exact rational
  type kept in normal form, so that every score computation is exact and
  executable (on those values IEEE-754 double arithmetic is also exact up
  to well-below-threshold rounding, e.g. `0.9 + 0.1 == 1.0` in doubles).
* The external collaborators (RxNorm API client `api_client.py`, the two
  JSON translation dictionaries, the YAML configuration, and the
  third-party fuzzywuzzy similarity function `fuzz.ratio`) are bundled
  into a `MapperEnv` of oracle functions, matching section 4.3 of the
  specification, which treats them as external interfaces.
* Calls to the terminology interface and translation-table lookups are
  logged explicitly (`ApiCall`), so that claims of the form "strategy X
  is not invoked" become statements about the log.
* The one exception the resolver can raise is modelled with
  `Except String`: `scored_products.sort(reverse=True)` in
  `_find_best_product_match` sorts tuples `(score, product_dict)`, and
  CPython tuple comparison falls through to comparing the two dicts
  whenever the scores are equal, which raises `TypeError` for distinct
  dicts (dicts are unordered).  The error string is a paraphrase of the
  CPython message, with the quote characters omitted.
* Python `str.upper()` / `str.strip()` / substring `in` are embedded as
  structurally recursive functions over the character lists (ASCII
  behaviour, which covers the data of this pipeline).
-/

/-- Exact rational number with positive denominator `den1 + 1`, used to
model the Python float arithmetic on confidence scores.  Values produced
by `pnorm` (and hence by all the arithmetic below) are in lowest terms,
so structural equality of computed scores coincides with equality of the
rational values. -/
structure PyRat where
  num : Int
  den1 : Nat
deriving DecidableEq

/-- Normalize the fraction `n / d` (`d` is the true denominator, positive
in every reachable call). -/
def pnorm (n : Int) (d : Nat) : PyRat :=
  let na := n.natAbs
  let g := na.gcd d
  if g = 0 then { num := 0, den1 := 0 }
  else if n < 0 then { num := -((na / g : Nat) : Int), den1 := d / g - 1 }
  else { num := ((na / g : Nat) : Int), den1 := d / g - 1 }

/-- The rational literal `n / d`. -/
def pyRat (n : Int) (d : Nat) : PyRat := pnorm n d

/-- Embed a natural number. -/
def pyOfNat (n : Nat) : PyRat := { num := (n : Int), den1 := 0 }

/-- Exact rational addition. -/
def pyAdd (a b : PyRat) : PyRat :=
  pnorm (a.num * ((b.den1 : Int) + 1) + b.num * ((a.den1 : Int) + 1))
    ((a.den1 + 1) * (b.den1 + 1))

/-- Exact rational multiplication. -/
def pyMul (a b : PyRat) : PyRat :=
  pnorm (a.num * b.num) ((a.den1 + 1) * (b.den1 + 1))

/-- Comparison `a < b` by cross-multiplication. -/
def pyLt (a b : PyRat) : Bool :=
  decide (a.num * ((b.den1 : Int) + 1) < b.num * ((a.den1 : Int) + 1))

/-- Comparison `a ≤ b` by cross-multiplication. -/
def pyLe (a b : PyRat) : Bool :=
  decide (a.num * ((b.den1 : Int) + 1) ≤ b.num * ((a.den1 : Int) + 1))

/-- The score zero. -/
def pyZero : PyRat := { num := 0, den1 := 0 }

/-- Decidable equality for `Except`, used to evaluate the resolver on
concrete inputs. -/
instance {ε α : Type} [DecidableEq ε] [DecidableEq α] : DecidableEq (Except ε α)
  | Except.ok a, Except.ok b =>
    if h : a = b then Decidable.isTrue (by rw [h])
    else Decidable.isFalse (fun hh => h (Except.ok.inj hh))
  | Except.ok _, Except.error _ => Decidable.isFalse (fun hh => Except.noConfusion hh)
  | Except.error _, Except.ok _ => Decidable.isFalse (fun hh => Except.noConfusion hh)
  | Except.error e, Except.error f =>
    if h : e = f then Decidable.isTrue (by rw [h])
    else Decidable.isFalse (fun hh => h (Except.error.inj hh))

/-- Python `str.upper()` (ASCII behaviour). -/
def pyUpper (s : String) : String := { data := s.data.map Char.toUpper }

/-- Drop leading whitespace characters. -/
def dropLeadingWs : List Char → List Char
  | [] => []
  | c :: cs => if c.isWhitespace then dropLeadingWs cs else c :: cs

/-- Python `str.strip()` with the default (whitespace) argument. -/
def pyStrip (s : String) : String :=
  { data := (dropLeadingWs (dropLeadingWs s.data).reverse).reverse }

/-- needle is a leading segment of hay (character lists). -/
def leadsWith : List Char → List Char → Bool
  | [], _ => true
  | _ :: _, [] => false
  | a :: as, b :: bs => a == b && leadsWith as bs

/-- needle occurs as a contiguous segment of hay (character lists). -/
def occursIn (n : List Char) : List Char → Bool
  | [] => leadsWith n []
  | b :: bs => leadsWith n (b :: bs) || occursIn n bs

/-- Python substring test `needle in hay` on strings; the empty needle is
contained in every string. -/
def pyIn (needle hay : String) : Bool :=
  occursIn needle.data hay.data

/-- A fuzzy-search candidate as assembled by
`RxNormAPIClient.approximate_search`: dict with keys rxcui, term, score.
The similarity score is on the 0–100 scale used by the service. -/
structure Candidate where
  rxcui : String
  term : String
  score : Nat
deriving DecidableEq

/-- A related-concept entry as assembled by
`RxNormAPIClient.get_related_concepts`: dict with keys rxcui, name, tty,
synonym. -/
structure ProductConcept where
  rxcui : String
  name : String
  tty : String
  synonym : String
deriving DecidableEq

/-- One input row of the CNOPS spreadsheet, restricted to the columns the
resolver reads (`CODE`, `NOM`, `DCI1`, `DOSAGE1`, `UNITE_DOSAGE1`,
`FORME`); the `row.get(key, "")` defaults are modelled by plain strings. -/
structure CnopsRecord where
  code : String
  nom : String
  dci1 : String
  dosage1 : String
  unite_dosage1 : String
  forme : String
deriving DecidableEq

/-- The Python dataclass `MappingResult` of `core_mapper.py`. -/
structure MappingResult where
  cnops_code : String
  original_name : String
  dci1 : String
  rxcui : Option String
  rxnorm_name : Option String
  confidence_score : PyRat
  mapping_method : String
  validation_notes : List String
  alternative_matches : List Candidate
deriving DecidableEq

/-- External collaborators of the resolver: the three terminology-service
operations of `RxNormAPIClient`, the two JSON dictionaries, the
third-party `fuzz.ratio` similarity function (`fuzz_sim`, 0–100 scale),
and the configuration values read from `mapping_config.yaml`. -/
structure MapperEnv where
  search_by_name : String → Option String
  approximate_search : String → Nat → List Candidate
  get_related_concepts : String → String → List ProductConcept
  ingredient_translations : String → Option String
  dose_form_translations : String → Option String
  fuzz_sim : String → String → Nat
  name_similarity_threshold : PyRat
  form_mismatch_penalty : PyRat
  combination_drug_penalty : PyRat
  th_high : PyRat
  th_medium : PyRat
  th_low : PyRat

/-- Observable effect log entries: the three terminology-interface calls
plus the membership test on the ingredient-translation dictionary
(strategy 2 entry check
`result.dci1.upper() in self.ingredient_translations`). -/
inductive ApiCall where
  | exactSearch (name : String)
  | approxSearch (term : String) (maxEntries : Nat)
  | relatedSearch (cui : String) (tty : String)
  | transKeyLookup (key : String)
deriving DecidableEq

/-- Does the scored-product list contain two entries with equal score but
distinct product dicts?  Exactly then CPython raises `TypeError` inside
`scored_products.sort(reverse=True)`: tuple comparison of two such
entries falls through to an unsupported dict ordering comparison, and the
sort compares every pair that ties (adjacent pairs during run detection,
the rest at binary-insertion or merge boundaries). -/
def hasTieConflict : List (Nat × ProductConcept) → Bool
  | [] => false
  | x :: xs => xs.any (fun y => x.1 == y.1 && !(x.2 == y.2)) || hasTieConflict xs

/-- Stable insertion step for a descending sort by score. -/
def insertDescS (x : Nat × ProductConcept) :
    List (Nat × ProductConcept) → List (Nat × ProductConcept)
  | [] => [x]
  | y :: ys => if y.1 < x.1 then x :: y :: ys else y :: insertDescS x ys

/-- Stable descending sort by score. -/
def sortDescS : List (Nat × ProductConcept) → List (Nat × ProductConcept)
  | [] => []
  | x :: xs => insertDescS x (sortDescS xs)

/-- `scored_products.sort(reverse=True)` on `(int, dict)` tuples: raises
`TypeError` whenever two entries tie on score with distinct dicts,
otherwise a stable descending order by score (ties between identical
dicts compare equal and keep their relative order). -/
def pySortDesc (l : List (Nat × ProductConcept)) :
    Except String (List (Nat × ProductConcept)) :=
  if hasTieConflict l then
    Except.error "TypeError: < not supported between instances of dict and dict"
  else
    Except.ok (sortDescS l)

/-- Score of one candidate product against the target strength and dose
form, lines 134–147 of `core_mapper.py`: +50 when the (unstripped)
strength string is a case-insensitive substring of the product name and
the stripped strength is non-empty, +30 when the translated dose form is
a case-insensitive substring of the product name. -/
def productScore (env : MapperEnv) (p : ProductConcept)
    (target_strength target_form : String) : Nat :=
  let product_name := pyUpper p.name
  (if pyStrip target_strength ≠ "" ∧ pyIn (pyUpper target_strength) product_name
   then 50 else 0) +
  (if pyIn (pyUpper ((env.dose_form_translations target_form).getD target_form))
        product_name
   then 30 else 0)

/-- `CNOPSToRxNormMapper._find_best_product_match`, lines 127–158: score
every product, sort the `(score, product)` pairs descending (which can
raise, see `pySortDesc`), return the top product when its score is
positive, otherwise the first product with term type SCD, otherwise the
first product. -/
def find_best_product_match (env : MapperEnv) (products : List ProductConcept)
    (target_strength target_form : String) :
    Except String (Option ProductConcept) :=
  match products with
  | [] => Except.ok none
  | _ =>
    let scored := products.map
      (fun p => (productScore env p target_strength target_form, p))
    match pySortDesc scored with
    | Except.error e => Except.error e
    | Except.ok sorted =>
      match sorted with
      | top :: _ =>
        if 0 < top.1 then Except.ok (some top.2)
        else
          match products.find? (fun p => p.tty == "SCD") with
          | some p => Except.ok (some p)
          | none => Except.ok products.head?
      | [] =>
        match products.find? (fun p => p.tty == "SCD") with
        | some p => Except.ok (some p)
        | none => Except.ok products.head?

/-- `CNOPSToRxNormMapper._enhance_with_products`, lines 107–125: no-op
without a match or when the related-concept query returns nothing;
otherwise replace id and name with the best product and add a flat +0.1,
noting the enhancement.  The second component is the log of
terminology-interface calls made. -/
def enhance_with_products (env : MapperEnv) (result : MappingResult)
    (rec : CnopsRecord) : Except String MappingResult × List ApiCall :=
  match result.rxcui with
  | none => (Except.ok result, [])
  | some cui =>
    let products := env.get_related_concepts cui "SCD+SBD"
    if products.isEmpty then
      (Except.ok result, [ApiCall.relatedSearch cui "SCD+SBD"])
    else
      let target_strength := rec.dosage1 ++ " " ++ rec.unite_dosage1
      match find_best_product_match env products target_strength rec.forme with
      | Except.error e => (Except.error e, [ApiCall.relatedSearch cui "SCD+SBD"])
      | Except.ok none => (Except.ok result, [ApiCall.relatedSearch cui "SCD+SBD"])
      | Except.ok (some bp) =>
        (Except.ok { result with
            rxcui := some bp.rxcui,
            rxnorm_name := some bp.name,
            confidence_score := pyAdd result.confidence_score (pyRat 1 10),
            validation_notes :=
              result.validation_notes ++ ["Enhanced with specific product"] },
         [ApiCall.relatedSearch cui "SCD+SBD"])

/-- `CNOPSToRxNormMapper._validate_mapping`, lines 160–187: force the
score to 0 with a note when there is no match; otherwise apply the
name-similarity penalty and the combination-drug penalty when triggered,
then append the confidence-tier note.  Python truthiness of
`result.rxnorm_name and result.dci1` requires both strings non-empty. -/
def validate_mapping (env : MapperEnv) (result : MappingResult) : MappingResult :=
  match result.rxcui with
  | none =>
    { result with
      confidence_score := pyZero,
      validation_notes := result.validation_notes ++ ["No RxNorm mapping found"] }
  | some _ =>
    let r1 :=
      match result.rxnorm_name with
      | some rn =>
        if rn ≠ "" ∧ result.dci1 ≠ "" then
          if pyLt (pyOfNat (env.fuzz_sim (pyUpper result.dci1) (pyUpper rn)))
              env.name_similarity_threshold then
            { result with
              confidence_score :=
                pyMul result.confidence_score env.form_mismatch_penalty,
              validation_notes := result.validation_notes ++
                ["Low name similarity: " ++
                  toString (env.fuzz_sim (pyUpper result.dci1) (pyUpper rn)) ++
                  "%"] }
          else result
        else result
      | none => result
    let r2 :=
      if pyIn "/" r1.dci1 ∧ ¬ pyIn "/" (r1.rxnorm_name.getD "") then
        { r1 with
          confidence_score :=
            pyMul r1.confidence_score env.combination_drug_penalty,
          validation_notes :=
            r1.validation_notes ++ ["Possible combination drug mismatch"] }
      else r1
    { r2 with
      validation_notes := r2.validation_notes ++
        [if pyLe env.th_high r2.confidence_score then "HIGH confidence mapping"
         else if pyLe env.th_medium r2.confidence_score then
           "MEDIUM confidence mapping"
         else if pyLe env.th_low r2.confidence_score then
           "LOW confidence - review recommended"
         else "VERY LOW confidence - manual review required"] }

/-- The `MappingResult` as constructed at the top of `map_single_drug`
(lines 56–60), with the dataclass defaults. -/
def init_result (rec : CnopsRecord) : MappingResult :=
  { cnops_code := rec.code,
    original_name := rec.nom,
    dci1 := rec.dci1,
    rxcui := none,
    rxnorm_name := none,
    confidence_score := pyZero,
    mapping_method := "none",
    validation_notes := [],
    alternative_matches := [] }

/-- Enhancement followed by validation, the common tail of every
successful strategy branch of `map_single_drug`. -/
def finish_stage (env : MapperEnv) (rec : CnopsRecord) (r : MappingResult) :
    Except String MappingResult × List ApiCall :=
  let er := enhance_with_products env r rec
  ((match er.1 with
    | Except.error e => Except.error e
    | Except.ok r2 => Except.ok (validate_mapping env r2)), er.2)

/-- Strategy 3 of `map_single_drug` (lines 91–105): approximate search
with `max_entries=5`; accept the first candidate only when its score is
at least 80, storing the remaining candidates as alternatives and noting
the score, then enhance; validation runs in every case. -/
def fuzzy_stage (env : MapperEnv) (rec : CnopsRecord) (result : MappingResult) :
    Except String MappingResult × List ApiCall :=
  match env.approximate_search result.dci1 5 with
  | best :: rest =>
    if 80 ≤ best.score then
      let r := { result with
        rxcui := some best.rxcui,
        rxnorm_name := some best.term,
        mapping_method := "fuzzy_high",
        confidence_score := pyRat 6 10,
        alternative_matches := rest,
        validation_notes := result.validation_notes ++
          ["Fuzzy match score: " ++ toString best.score] }
      let fe := finish_stage env rec r
      (fe.1, ApiCall.approxSearch result.dci1 5 :: fe.2)
    else
      (Except.ok (validate_mapping env result),
       [ApiCall.approxSearch result.dci1 5])
  | [] =>
    (Except.ok (validate_mapping env result),
     [ApiCall.approxSearch result.dci1 5])

/-- `CNOPSToRxNormMapper.map_single_drug`, lines 54–105: the empty-DCI1
early return, then strategies 1–3 in strict priority order, each
successful strategy finishing with enhancement and validation.  The
second component is the log of external lookups, in call order. -/
def map_single_drug (env : MapperEnv) (rec : CnopsRecord) :
    Except String MappingResult × List ApiCall :=
  let result := init_result rec
  if result.dci1 = "" then
    (Except.ok { result with
        validation_notes :=
          result.validation_notes ++ ["No DCI1 ingredient specified"] }, [])
  else
    match env.search_by_name result.dci1 with
    | some cui =>
      let r := { result with
        rxcui := some cui,
        rxnorm_name := some result.dci1,
        mapping_method := "direct_exact",
        confidence_score := pyRat 9 10 }
      let fe := finish_stage env rec r
      (fe.1, ApiCall.exactSearch result.dci1 :: fe.2)
    | none =>
      match env.ingredient_translations (pyUpper result.dci1) with
      | some translated =>
        match env.search_by_name translated with
        | some cui =>
          let r := { result with
            rxcui := some cui,
            rxnorm_name := some translated,
            mapping_method := "translated_exact",
            confidence_score := pyRat 8 10,
            validation_notes := result.validation_notes ++
              ["Used translation: " ++ result.dci1 ++ " -> " ++ translated] }
          let fe := finish_stage env rec r
          (fe.1, ApiCall.exactSearch result.dci1 ::
                 ApiCall.transKeyLookup (pyUpper result.dci1) ::
                 ApiCall.exactSearch translated :: fe.2)
        | none =>
          let fz := fuzzy_stage env rec result
          (fz.1, ApiCall.exactSearch result.dci1 ::
                 ApiCall.transKeyLookup (pyUpper result.dci1) ::
                 ApiCall.exactSearch translated :: fz.2)
      | none =>
        let fz := fuzzy_stage env rec result
        (fz.1, ApiCall.exactSearch result.dci1 ::
               ApiCall.transKeyLookup (pyUpper result.dci1) :: fz.2)

/-- One output row of `process_file`, lines 203–226. -/
structure OutputRow where
  cnops_code : String
  original_name : String
  dci1 : String
  rxcui : Option String
  rxnorm_name : Option String
  confidence_score : PyRat
  mapping_method : String
  validation_notes : String
  alternatives_count : Nat
deriving DecidableEq

/-- The body of the per-record loop of `process_file` (lines 201–226):
serialize a successful resolution, or catch the exception and emit an
error row preserving the message. -/
def process_row (env : MapperEnv) (rec : CnopsRecord) : OutputRow :=
  match (map_single_drug env rec).1 with
  | Except.ok m =>
    { cnops_code := m.cnops_code,
      original_name := m.original_name,
      dci1 := m.dci1,
      rxcui := m.rxcui,
      rxnorm_name := m.rxnorm_name,
      confidence_score := m.confidence_score,
      mapping_method := m.mapping_method,
      validation_notes := String.intercalate "; " m.validation_notes,
      alternatives_count := m.alternative_matches.length }
  | Except.error e =>
    { cnops_code := rec.code,
      original_name := rec.nom,
      dci1 := rec.dci1,
      rxcui := none,
      rxnorm_name := none,
      confidence_score := pyZero,
      mapping_method := "error",
      validation_notes := "Error: " ++ e,
      alternatives_count := 0 }

/-- `CNOPSToRxNormMapper.process_file` restricted to its record loop
(lines 196–227): one row per input record, in input order. -/
def process_file (env : MapperEnv) (recs : List CnopsRecord) : List OutputRow :=
  recs.map (process_row env)

/-- Is a log entry an invocation of a strategy below strategy 1
(translation-table lookup or approximate search)? -/
def isLowerStrategyCall : ApiCall → Bool
  | ApiCall.approxSearch _ _ => true
  | ApiCall.transKeyLookup _ => true
  | _ => false

/-- A stub environment: every lookup misses, similarity 100, plausible
configuration values (threshold 70, penalties 0.7 and 0.8, confidence
tiers 0.8 / 0.6 / 0.4). -/
def stubEnv : MapperEnv :=
  { search_by_name := fun _ => none,
    approximate_search := fun _ _ => [],
    get_related_concepts := fun _ _ => [],
    ingredient_translations := fun _ => none,
    dose_form_translations := fun _ => none,
    fuzz_sim := fun _ _ => 100,
    name_similarity_threshold := pyRat 70 1,
    form_mismatch_penalty := pyRat 7 10,
    combination_drug_penalty := pyRat 8 10,
    th_high := pyRat 8 10,
    th_medium := pyRat 6 10,
    th_low := pyRat 4 10 }

example : pyIn "500 MG" "ASPIRIN 500 MG TAB" = true := by decide
example : pyIn "X" "ABC" = false := by decide
example : pyAdd (pyRat 9 10) (pyRat 1 10) = pyRat 1 1 := by decide
example : pyLe (pyRat 8 10) (pyRat 9 10) = true := by decide
example : pyStrip " " = "" := by decide
example : pyUpper "aspirin" = "ASPIRIN" := by decide

/-- Two distinct product dicts that tie on score for a record with no
strength and no dose form (the empty translated form is a substring of
every name, so both score 30). -/
def prodA : ProductConcept :=
  { rxcui := "100", name := "PRODUCT ONE", tty := "SCD", synonym := "" }

/-- See `prodA`. -/
def prodB : ProductConcept :=
  { rxcui := "200", name := "PRODUCT TWO", tty := "SCD", synonym := "" }

/-- Environment whose exact search hits AMOXICILLINE and whose
related-concept query returns two products that tie on score. -/
def tieEnvA : MapperEnv :=
  { stubEnv with
    search_by_name := fun n => if n = "AMOXICILLINE" then some "723" else none,
    get_related_concepts := fun _ _ => [prodA, prodB] }

/-- Record resolved against `tieEnvA`. -/
def recAmox : CnopsRecord :=
  { code := "C001", nom := "AMOX CAP", dci1 := "AMOXICILLINE",
    dosage1 := "", unite_dosage1 := "", forme := "" }

/-- Record with an empty DCI1 ingredient field. -/
def recEmptyD : CnopsRecord :=
  { code := "C002", nom := "X", dci1 := "", dosage1 := "",
    unite_dosage1 := "", forme := "" }

/-- Environment whose exact search hits IBUPROFEN and returns no related
products. -/
def envDirect : MapperEnv :=
  { stubEnv with
    search_by_name := fun n => if n = "IBUPROFEN" then some "5640" else none }

/-- Record resolved against `envDirect`. -/
def recIbu : CnopsRecord :=
  { code := "C003", nom := "IBU", dci1 := "IBUPROFEN", dosage1 := "200",
    unite_dosage1 := "MG", forme := "COMPRIME" }

/-- Environment realizing the aspirin scenario: exact search misses the
raw name, the translation table maps it to aspirin, the exact search on
aspirin returns 1191, and no related concepts exist. -/
def envAsp : MapperEnv :=
  { stubEnv with
    search_by_name := fun n => if n = "aspirin" then some "1191" else none,
    ingredient_translations := fun k =>
      if k = "ACIDE ACETYLSALICYLIQUE" then some "aspirin" else none }

/-- Record carrying the aspirin scenario ingredient. -/
def recAsp : CnopsRecord :=
  { code := "C004", nom := "ASPIRINE", dci1 := "ACIDE ACETYLSALICYLIQUE",
    dosage1 := "", unite_dosage1 := "", forme := "" }

/-- Environment whose approximate search returns two ranked candidates,
the best scoring 85. -/
def envFuzzy : MapperEnv :=
  { stubEnv with
    approximate_search := fun t n =>
      if t = "PARACETAMOL" ∧ n = 5 then
        [{ rxcui := "161", term := "Acetaminophen", score := 85 },
         { rxcui := "162", term := "Other", score := 60 }]
      else [] }

/-- Record resolved against `envFuzzy`. -/
def recPara : CnopsRecord :=
  { code := "C005", nom := "DOLIPRANE", dci1 := "PARACETAMOL",
    dosage1 := "", unite_dosage1 := "", forme := "" }

/-- Environment whose related-concept query returns two tying products. -/
def tieEnvB : MapperEnv :=
  { stubEnv with
    get_related_concepts := fun _ _ =>
      [{ rxcui := "300", name := "ALPHA", tty := "SBD", synonym := "" },
       { rxcui := "400", name := "BETA", tty := "SBD", synonym := "" }] }

/-- A matched result entering enhancement against `tieEnvB`. -/
def rMatchB : MappingResult :=
  { cnops_code := "C006", original_name := "N", dci1 := "DCI",
    rxcui := some "42", rxnorm_name := some "DCI",
    confidence_score := pyRat 9 10, mapping_method := "direct_exact",
    validation_notes := [], alternative_matches := [] }

/-- Record accompanying `rMatchB`. -/
def recB : CnopsRecord :=
  { code := "C006", nom := "N", dci1 := "DCI", dosage1 := "",
    unite_dosage1 := "", forme := "" }

/-- Environment whose related-concept query returns two products with
distinct scores (80 vs 30 against `recC10w`). -/
def envC10w : MapperEnv :=
  { stubEnv with
    get_related_concepts := fun _ _ =>
      [{ rxcui := "500", name := "DRUG 200 MG TAB", tty := "SCD", synonym := "" },
       { rxcui := "600", name := "OTHER", tty := "SBD", synonym := "" }] }

/-- Record with strength 200 MG, used with `envC10w`. -/
def recC10w : CnopsRecord :=
  { code := "C007", nom := "D", dci1 := "DRUG", dosage1 := "200",
    unite_dosage1 := "MG", forme := "" }

/-- Record whose ingredient matches nothing in `stubEnv`. -/
def recX : CnopsRecord :=
  { code := "C9", nom := "NOMATCH", dci1 := "XYZ", dosage1 := "",
    unite_dosage1 := "", forme := "" }

/-- Environment whose similarity oracle reports 10 (below the configured
threshold 70). -/
def envLowSim : MapperEnv :=
  { stubEnv with fuzz_sim := fun _ _ => 10 }

/-- A matched result used to exercise the similarity penalty. -/
def rMatchC7 : MappingResult :=
  { cnops_code := "C008", original_name := "N", dci1 := "ALPHA",
    rxcui := some "77", rxnorm_name := some "BETA",
    confidence_score := pyRat 9 10, mapping_method := "direct_exact",
    validation_notes := [], alternative_matches := [] }

/-- The result `map_single_drug stubEnv recEmptyD` evaluates to. -/
def resEmptyD : MappingResult :=
  { cnops_code := "C002", original_name := "X", dci1 := "",
    rxcui := none, rxnorm_name := none, confidence_score := pyZero,
    mapping_method := "none",
    validation_notes := ["No DCI1 ingredient specified"],
    alternative_matches := [] }

/-- The result `map_single_drug stubEnv recX` evaluates to. -/
def resX : MappingResult :=
  { cnops_code := "C9", original_name := "NOMATCH", dci1 := "XYZ",
    rxcui := none, rxnorm_name := none, confidence_score := pyZero,
    mapping_method := "none",
    validation_notes := ["No RxNorm mapping found"],
    alternative_matches := [] }

/-- The result `map_single_drug envDirect recIbu` evaluates to. -/
def resIbu : MappingResult :=
  { cnops_code := "C003", original_name := "IBU", dci1 := "IBUPROFEN",
    rxcui := some "5640", rxnorm_name := some "IBUPROFEN",
    confidence_score := pyRat 9 10, mapping_method := "direct_exact",
    validation_notes := ["HIGH confidence mapping"],
    alternative_matches := [] }

theorem validate_mapping_rxcui (env : MapperEnv) (r : MappingResult) :
    (validate_mapping env r).rxcui = r.rxcui := by
  unfold validate_mapping
  repeat' first | rfl | split | dsimp only

theorem validate_mapping_method (env : MapperEnv) (r : MappingResult) :
    (validate_mapping env r).mapping_method = r.mapping_method := by
  unfold validate_mapping
  repeat' first | rfl | split | dsimp only

theorem validate_mapping_alts (env : MapperEnv) (r : MappingResult) :
    (validate_mapping env r).alternative_matches = r.alternative_matches := by
  unfold validate_mapping
  repeat' first | rfl | split | dsimp only

theorem validate_mapping_dci1 (env : MapperEnv) (r : MappingResult) :
    (validate_mapping env r).dci1 = r.dci1 := by
  unfold validate_mapping
  repeat' first | rfl | split | dsimp only

theorem validate_mapping_notes_mono (env : MapperEnv) (r : MappingResult)
    (n : String) (h : n ∈ r.validation_notes) :
    n ∈ (validate_mapping env r).validation_notes := by
  unfold validate_mapping
  repeat' first | simp [h] | split

theorem validate_mapping_conf_none (env : MapperEnv) (r : MappingResult)
    (h : r.rxcui = none) :
    (validate_mapping env r).confidence_score = pyZero ∧
    "No RxNorm mapping found" ∈ (validate_mapping env r).validation_notes := by
  unfold validate_mapping
  rw [h]
  exact ⟨rfl, by simp⟩

theorem pnorm_num_pos {n : Int} {d : Nat} (hn : 0 < n) (_hd : 0 < d) :
    0 < (pnorm n d).num := by
  unfold pnorm
  have hna : 0 < n.natAbs := Int.natAbs_pos.mpr hn.ne'
  have hg : 0 < n.natAbs.gcd d := Nat.gcd_pos_of_pos_left d hna
  rw [if_neg hg.ne', if_neg (by omega : ¬ n < 0)]
  have hq : 0 < n.natAbs / n.natAbs.gcd d :=
    Nat.div_pos (Nat.le_of_dvd hna (Nat.gcd_dvd_left _ _)) hg
  dsimp only
  exact_mod_cast hq

theorem pyLt_zero_iff (a : PyRat) : pyLt pyZero a = true ↔ 0 < a.num := by
  simp [pyLt, pyZero]

theorem pyMul_pos {a b : PyRat} (ha : 0 < a.num) (hb : 0 < b.num) :
    0 < (pyMul a b).num := by
  unfold pyMul
  exact pnorm_num_pos (mul_pos ha hb) (Nat.mul_pos (Nat.succ_pos _) (Nat.succ_pos _))

theorem pyAdd_pos {a b : PyRat} (ha : 0 < a.num) (hb : 0 < b.num) :
    0 < (pyAdd a b).num := by
  unfold pyAdd
  refine pnorm_num_pos ?_ (Nat.mul_pos (Nat.succ_pos _) (Nat.succ_pos _))
  have h1 : (0:Int) < (a.den1 : Int) + 1 := by positivity
  have h2 : (0:Int) < (b.den1 : Int) + 1 := by positivity
  positivity

theorem validate_mapping_conf_pos (env : MapperEnv) (r : MappingResult)
    (cui : String) (h : r.rxcui = some cui)
    (hc : 0 < r.confidence_score.num)
    (hp1 : 0 < env.form_mismatch_penalty.num)
    (hp2 : 0 < env.combination_drug_penalty.num) :
    0 < (validate_mapping env r).confidence_score.num := by
  unfold validate_mapping
  rw [h]
  dsimp only
  repeat' split
  all_goals
    first
      | exact hc
      | exact pyMul_pos hc hp1
      | exact pyMul_pos hc hp2
      | exact pyMul_pos (pyMul_pos hc hp1) hp2

theorem enhance_ok_spec (env : MapperEnv) (r : MappingResult) (rec : CnopsRecord)
    (r' : MappingResult)
    (h : (enhance_with_products env r rec).1 = Except.ok r') :
    r'.mapping_method = r.mapping_method ∧
    r'.dci1 = r.dci1 ∧
    r'.cnops_code = r.cnops_code ∧
    r'.original_name = r.original_name ∧
    r'.alternative_matches = r.alternative_matches ∧
    (r' = r ∨
      ∃ p : ProductConcept,
        r'.rxcui = some p.rxcui ∧
        r'.rxnorm_name = some p.name ∧
        r'.confidence_score = pyAdd r.confidence_score (pyRat 1 10) ∧
        r'.validation_notes =
          r.validation_notes ++ ["Enhanced with specific product"]) := by
  unfold enhance_with_products at h
  split at h
  case h_1 =>
    -- no rxcui: identity
    have : r' = r := by
      simpa using h.symm
    subst this
    exact ⟨rfl, rfl, rfl, rfl, rfl, Or.inl rfl⟩
  case h_2 cui heq =>
    dsimp only at h
    split at h
    case isTrue =>
      have : r' = r := by simpa using h.symm
      subst this
      exact ⟨rfl, rfl, rfl, rfl, rfl, Or.inl rfl⟩
    case isFalse =>
      split at h
      case h_1 => exact absurd h (by simp)
      case h_2 =>
        have : r' = r := by simpa using h.symm
        subst this
        exact ⟨rfl, rfl, rfl, rfl, rfl, Or.inl rfl⟩
      case h_3 bp hbp =>
        have hr' : r' = { r with
            rxcui := some bp.rxcui,
            rxnorm_name := some bp.name,
            confidence_score := pyAdd r.confidence_score (pyRat 1 10),
            validation_notes :=
              r.validation_notes ++ ["Enhanced with specific product"] } := by
          simpa using h.symm
        subst hr'
        exact ⟨rfl, rfl, rfl, rfl, rfl, Or.inr ⟨bp, rfl, rfl, rfl, rfl⟩⟩

theorem enhance_rxcui_some (env : MapperEnv) (r : MappingResult) (rec : CnopsRecord)
    (r' : MappingResult) (cui : String) (hcui : r.rxcui = some cui)
    (h : (enhance_with_products env r rec).1 = Except.ok r') :
    ∃ cui2, r'.rxcui = some cui2 := by
  rcases (enhance_ok_spec env r rec r' h).2.2.2.2.2 with hid | ⟨p, hp, -⟩
  · exact ⟨cui, hid ▸ hcui⟩
  · exact ⟨p.rxcui, hp⟩

theorem enhance_conf (env : MapperEnv) (r : MappingResult) (rec : CnopsRecord)
    (r' : MappingResult)
    (h : (enhance_with_products env r rec).1 = Except.ok r') :
    r'.confidence_score = r.confidence_score ∨
    r'.confidence_score = pyAdd r.confidence_score (pyRat 1 10) := by
  rcases (enhance_ok_spec env r rec r' h).2.2.2.2.2 with hid | ⟨p, -, -, hconf, -⟩
  · exact Or.inl (by rw [hid])
  · exact Or.inr hconf

theorem enhance_log_lower (env : MapperEnv) (r : MappingResult) (rec : CnopsRecord) :
    ∀ c ∈ (enhance_with_products env r rec).2, isLowerStrategyCall c = false := by
  unfold enhance_with_products
  repeat' first | simp [isLowerStrategyCall] | split

theorem map_single_drug_direct (env : MapperEnv) (rec : CnopsRecord) (cui : String)
    (h0 : ¬ rec.dci1 = "") (h1 : env.search_by_name rec.dci1 = some cui) :
    map_single_drug env rec =
      ((finish_stage env rec
          { init_result rec with
            rxcui := some cui, rxnorm_name := some rec.dci1,
            mapping_method := "direct_exact", confidence_score := pyRat 9 10 }).1,
       ApiCall.exactSearch rec.dci1 ::
         (finish_stage env rec
           { init_result rec with
             rxcui := some cui, rxnorm_name := some rec.dci1,
             mapping_method := "direct_exact", confidence_score := pyRat 9 10 }).2) := by
  unfold map_single_drug
  dsimp only [init_result]
  rw [if_neg h0, h1]

theorem finish_stage_ok (env : MapperEnv) (rec : CnopsRecord)
    (r r' : MappingResult)
    (h : (finish_stage env rec r).1 = Except.ok r') :
    ∃ r2, (enhance_with_products env r rec).1 = Except.ok r2 ∧
      r' = validate_mapping env r2 := by
  unfold finish_stage at h
  dsimp only at h
  split at h
  case h_1 => exact absurd h (by simp)
  case h_2 r2 heq => exact ⟨r2, heq, by simpa using h.symm⟩

theorem finish_stage_notes (env : MapperEnv) (rec : CnopsRecord)
    (r r' : MappingResult) (n : String) (hn : n ∈ r.validation_notes)
    (h : (finish_stage env rec r).1 = Except.ok r') :
    n ∈ r'.validation_notes := by
  obtain ⟨r2, he, hv⟩ := finish_stage_ok env rec r r' h
  have h2 : n ∈ r2.validation_notes := by
    rcases (enhance_ok_spec env r rec r2 he).2.2.2.2.2 with hid | ⟨p, -, -, -, hnotes⟩
    · rw [hid]; exact hn
    · rw [hnotes]; exact List.mem_append_left _ hn
  rw [hv]
  exact validate_mapping_notes_mono env r2 n h2

theorem finish_stage_good (env : MapperEnv) (rec : CnopsRecord)
    (r r' : MappingResult) (cui : String)
    (hcui : r.rxcui = some cui) (hconf : 0 < r.confidence_score.num)
    (hp1 : 0 < env.form_mismatch_penalty.num)
    (hp2 : 0 < env.combination_drug_penalty.num)
    (h : (finish_stage env rec r).1 = Except.ok r') :
    r'.mapping_method = r.mapping_method ∧
    (∃ c2, r'.rxcui = some c2) ∧
    0 < r'.confidence_score.num ∧
    r'.alternative_matches = r.alternative_matches := by
  obtain ⟨r2, he, hv⟩ := finish_stage_ok env rec r r' h
  obtain ⟨hm, -, -, -, halt, -⟩ := enhance_ok_spec env r rec r2 he
  obtain ⟨c2, hc2⟩ := enhance_rxcui_some env r rec r2 cui hcui he
  have hconf2 : 0 < r2.confidence_score.num := by
    rcases enhance_conf env r rec r2 he with hsame | hbump
    · rw [hsame]; exact hconf
    · rw [hbump]; exact pyAdd_pos hconf (by decide)
  subst hv
  refine ⟨?_, ⟨c2, ?_⟩, ?_, ?_⟩
  · rw [validate_mapping_method, hm]
  · rw [validate_mapping_rxcui]; exact hc2
  · exact validate_mapping_conf_pos env r2 c2 hc2 hconf2 hp1 hp2
  · rw [validate_mapping_alts, halt]

theorem map_single_drug_translated (env : MapperEnv) (rec : CnopsRecord)
    (t cui : String)
    (h0 : ¬ rec.dci1 = "") (h1 : env.search_by_name rec.dci1 = none)
    (h2 : env.ingredient_translations (pyUpper rec.dci1) = some t)
    (h3 : env.search_by_name t = some cui) :
    map_single_drug env rec =
      ((finish_stage env rec
          { init_result rec with
            rxcui := some cui, rxnorm_name := some t,
            mapping_method := "translated_exact", confidence_score := pyRat 8 10,
            validation_notes :=
              ["Used translation: " ++ rec.dci1 ++ " -> " ++ t] }).1,
       ApiCall.exactSearch rec.dci1 ::
         ApiCall.transKeyLookup (pyUpper rec.dci1) ::
         ApiCall.exactSearch t ::
         (finish_stage env rec
           { init_result rec with
             rxcui := some cui, rxnorm_name := some t,
             mapping_method := "translated_exact", confidence_score := pyRat 8 10,
             validation_notes :=
               ["Used translation: " ++ rec.dci1 ++ " -> " ++ t] }).2) := by
  unfold map_single_drug
  dsimp only [init_result]
  rw [if_neg h0]
  simp only [h1, h2, h3, List.nil_append]

theorem map_single_drug_to_fuzzy (env : MapperEnv) (rec : CnopsRecord)
    (h0 : ¬ rec.dci1 = "") (h1 : env.search_by_name rec.dci1 = none)
    (h2 : ∀ t, env.ingredient_translations (pyUpper rec.dci1) = some t →
      env.search_by_name t = none) :
    (map_single_drug env rec).1 = (fuzzy_stage env rec (init_result rec)).1 := by
  unfold map_single_drug
  dsimp only [init_result]
  rw [if_neg h0]
  simp only [h1]
  cases htr : env.ingredient_translations (pyUpper rec.dci1) with
  | none => rfl
  | some t => simp only [h2 t htr]

theorem fuzzy_stage_accept (env : MapperEnv) (rec : CnopsRecord)
    (base : MappingResult) (best : Candidate) (rest : List Candidate)
    (hm : env.approximate_search base.dci1 5 = best :: rest)
    (hs : 80 ≤ best.score) :
    fuzzy_stage env rec base =
      ((finish_stage env rec
          { base with
            rxcui := some best.rxcui, rxnorm_name := some best.term,
            mapping_method := "fuzzy_high", confidence_score := pyRat 6 10,
            alternative_matches := rest,
            validation_notes := base.validation_notes ++
              ["Fuzzy match score: " ++ toString best.score] }).1,
       ApiCall.approxSearch base.dci1 5 ::
         (finish_stage env rec
           { base with
             rxcui := some best.rxcui, rxnorm_name := some best.term,
             mapping_method := "fuzzy_high", confidence_score := pyRat 6 10,
             alternative_matches := rest,
             validation_notes := base.validation_notes ++
               ["Fuzzy match score: " ++ toString best.score] }).2) := by
  unfold fuzzy_stage
  rw [hm]
  dsimp only
  rw [if_pos hs]

theorem fuzzy_stage_reject (env : MapperEnv) (rec : CnopsRecord)
    (base : MappingResult) (best : Candidate) (rest : List Candidate)
    (hm : env.approximate_search base.dci1 5 = best :: rest)
    (hs : ¬ 80 ≤ best.score) :
    fuzzy_stage env rec base =
      (Except.ok (validate_mapping env base),
       [ApiCall.approxSearch base.dci1 5]) := by
  unfold fuzzy_stage
  rw [hm]
  dsimp only
  rw [if_neg hs]

theorem fuzzy_stage_empty (env : MapperEnv) (rec : CnopsRecord)
    (base : MappingResult)
    (hm : env.approximate_search base.dci1 5 = []) :
    fuzzy_stage env rec base =
      (Except.ok (validate_mapping env base),
       [ApiCall.approxSearch base.dci1 5]) := by
  unfold fuzzy_stage
  rw [hm]

theorem map_ok_cases (env : MapperEnv) (rec : CnopsRecord) (r : MappingResult)
    (hd : ¬ rec.dci1 = "")
    (hok : (map_single_drug env rec).1 = Except.ok r) :
    ∃ r2 : MappingResult, r = validate_mapping env r2 ∧
      (r2 = init_result rec ∨
       (∃ cui, r2.rxcui = some cui ∧ 0 < r2.confidence_score.num ∧
         r2.mapping_method ≠ "none" ∧ r2.mapping_method ≠ "error")) := by
  have base_good :
      ∀ (st : MappingResult) (cui : String), st.rxcui = some cui →
        0 < st.confidence_score.num →
        st.mapping_method ≠ "none" → st.mapping_method ≠ "error" →
        ∀ r', (finish_stage env rec st).1 = Except.ok r' →
        ∃ r2 : MappingResult, r' = validate_mapping env r2 ∧
          (r2 = init_result rec ∨
           (∃ c2, r2.rxcui = some c2 ∧ 0 < r2.confidence_score.num ∧
             r2.mapping_method ≠ "none" ∧ r2.mapping_method ≠ "error")) := by
    intro st cui hcui hconf hm1 hm2 r' hfin
    obtain ⟨r2, he, hv⟩ := finish_stage_ok env rec st r' hfin
    obtain ⟨hmeq, -, -, -, -, -⟩ := enhance_ok_spec env st rec r2 he
    obtain ⟨c2, hc2⟩ := enhance_rxcui_some env st rec r2 cui hcui he
    have hconf2 : 0 < r2.confidence_score.num := by
      rcases enhance_conf env st rec r2 he with hsame | hbump
      · rw [hsame]; exact hconf
      · rw [hbump]; exact pyAdd_pos hconf (by decide)
    exact ⟨r2, hv, Or.inr ⟨c2, hc2, hconf2, by rw [hmeq]; exact hm1,
      by rw [hmeq]; exact hm2⟩⟩
  cases hs : env.search_by_name rec.dci1 with
  | some cui =>
    rw [map_single_drug_direct env rec cui hd hs] at hok
    dsimp only at hok
    exact base_good _ cui rfl ((by decide : (0:Int) < (pyRat 9 10).num))
      ((by decide : ("direct_exact":String) ≠ "none"))
      ((by decide : ("direct_exact":String) ≠ "error")) r hok
  | none =>
    have fuzzy_case :
        (map_single_drug env rec).1 = (fuzzy_stage env rec (init_result rec)).1 →
        ∃ r2 : MappingResult, r = validate_mapping env r2 ∧
          (r2 = init_result rec ∨
           (∃ c2, r2.rxcui = some c2 ∧ 0 < r2.confidence_score.num ∧
             r2.mapping_method ≠ "none" ∧ r2.mapping_method ≠ "error")) := by
      intro hred
      rw [hred] at hok
      cases hm : env.approximate_search rec.dci1 5 with
      | nil =>
        rw [fuzzy_stage_empty env rec (init_result rec) hm] at hok
        dsimp only at hok
        exact ⟨init_result rec, (Except.ok.inj hok).symm, Or.inl rfl⟩
      | cons best rest =>
        by_cases hb : 80 ≤ best.score
        · rw [fuzzy_stage_accept env rec (init_result rec) best rest hm hb] at hok
          dsimp only at hok
          exact base_good _ best.rxcui rfl ((by decide : (0:Int) < (pyRat 6 10).num))
            ((by decide : ("fuzzy_high":String) ≠ "none"))
            ((by decide : ("fuzzy_high":String) ≠ "error")) r hok
        · rw [fuzzy_stage_reject env rec (init_result rec) best rest hm hb] at hok
          dsimp only at hok
          exact ⟨init_result rec, (Except.ok.inj hok).symm, Or.inl rfl⟩
    cases htr : env.ingredient_translations (pyUpper rec.dci1) with
    | some t =>
      cases hst : env.search_by_name t with
      | some cui =>
        rw [map_single_drug_translated env rec t cui hd hs htr hst] at hok
        dsimp only at hok
        exact base_good _ cui rfl ((by decide : (0:Int) < (pyRat 8 10).num))
          ((by decide : ("translated_exact":String) ≠ "none"))
          ((by decide : ("translated_exact":String) ≠ "error")) r hok
      | none =>
        refine fuzzy_case (map_single_drug_to_fuzzy env rec hd hs ?_)
        intro t' ht'
        rw [htr] at ht'
        cases Option.some.inj ht'
        exact hst
    | none =>
      refine fuzzy_case (map_single_drug_to_fuzzy env rec hd hs ?_)
      intro t' ht'
      rw [htr] at ht'
      exact absurd ht' (by simp)

theorem insertDescS_length (x : Nat × ProductConcept)
    (l : List (Nat × ProductConcept)) :
    (insertDescS x l).length = l.length + 1 := by
  induction l with
  | nil => rfl
  | cons y ys ih =>
    unfold insertDescS
    split
    · simp
    · simp [ih]

theorem sortDescS_length (l : List (Nat × ProductConcept)) :
    (sortDescS l).length = l.length := by
  induction l with
  | nil => rfl
  | cons x xs ih => simp [sortDescS, insertDescS_length, ih]

theorem mem_insertDescS (y x : Nat × ProductConcept)
    (l : List (Nat × ProductConcept)) :
    y ∈ insertDescS x l ↔ y = x ∨ y ∈ l := by
  induction l with
  | nil => simp [insertDescS]
  | cons z zs ih =>
    unfold insertDescS
    split
    · simp [List.mem_cons]
    · simp [List.mem_cons, ih]
      tauto

theorem mem_sortDescS (y : Nat × ProductConcept)
    (l : List (Nat × ProductConcept)) :
    y ∈ sortDescS l ↔ y ∈ l := by
  induction l with
  | nil => simp [sortDescS]
  | cons x xs ih => simp [sortDescS, mem_insertDescS, ih, List.mem_cons]

theorem find_best_some (env : MapperEnv) (products : List ProductConcept)
    (ts tf : String) (hne : products ≠ [])
    (htie : hasTieConflict
      (products.map (fun p => (productScore env p ts tf, p))) = false) :
    ∃ p, p ∈ products ∧
      find_best_product_match env products ts tf = Except.ok (some p) := by
  cases products with
  | nil => exact absurd rfl hne
  | cons q qs =>
    obtain ⟨top, t, hsorted⟩ :
        ∃ top t, sortDescS ((q :: qs).map
          (fun p => (productScore env p ts tf, p))) = top :: t := by
      cases hcase : sortDescS ((q :: qs).map
          (fun p => (productScore env p ts tf, p))) with
      | nil =>
        have hlen := sortDescS_length ((q :: qs).map
          (fun p => (productScore env p ts tf, p)))
        rw [hcase] at hlen
        simp at hlen
      | cons a b => exact ⟨a, b, rfl⟩
    have hps : pySortDesc ((q :: qs).map
        (fun p => (productScore env p ts tf, p))) = Except.ok (top :: t) := by
      unfold pySortDesc
      rw [htie, hsorted]
      simp
    unfold find_best_product_match
    dsimp only
    rw [hps]
    dsimp only
    by_cases h0 : 0 < top.1
    · rw [if_pos h0]
      have htop : top ∈ (q :: qs).map (fun p => (productScore env p ts tf, p)) := by
        rw [← mem_sortDescS, hsorted]
        exact List.mem_cons_self _ _
      obtain ⟨p, hp, hpe⟩ := List.mem_map.mp htop
      exact ⟨p, hp, by rw [← hpe]⟩
    · rw [if_neg h0]
      cases hf : (q :: qs).find? (fun p => p.tty == "SCD") with
      | some p => exact ⟨p, List.mem_of_find?_eq_some hf, rfl⟩
      | none => exact ⟨q, List.mem_cons_self _ _, rfl⟩

theorem finish_stage_basic (env : MapperEnv) (rec : CnopsRecord)
    (st r' : MappingResult) (cui : String)
    (hcui : st.rxcui = some cui)
    (h : (finish_stage env rec st).1 = Except.ok r') :
    r'.mapping_method = st.mapping_method ∧
    (∃ c2, r'.rxcui = some c2) ∧
    r'.alternative_matches = st.alternative_matches := by
  obtain ⟨r2, he, hv⟩ := finish_stage_ok env rec st r' h
  obtain ⟨hm, -, -, -, halt, -⟩ := enhance_ok_spec env st rec r2 he
  obtain ⟨c2, hc2⟩ := enhance_rxcui_some env st rec r2 cui hcui he
  subst hv
  exact ⟨by rw [validate_mapping_method, hm],
    ⟨c2, by rw [validate_mapping_rxcui]; exact hc2⟩,
    by rw [validate_mapping_alts, halt]⟩

theorem map_single_drug_empty (env : MapperEnv) (rec : CnopsRecord)
    (h : rec.dci1 = "") :
    map_single_drug env rec =
      (Except.ok { init_result rec with
        validation_notes := ["No DCI1 ingredient specified"] }, []) := by
  unfold map_single_drug
  dsimp only [init_result]
  rw [if_pos h]
  rfl

theorem finish_stage_log (env : MapperEnv) (rec : CnopsRecord) (r : MappingResult) :
    (finish_stage env rec r).2 = (enhance_with_products env r rec).2 := rfl

theorem enhance_no_products (env : MapperEnv) (r : MappingResult)
    (rec : CnopsRecord) (cui : String) (hcui : r.rxcui = some cui)
    (hp : env.get_related_concepts cui "SCD+SBD" = []) :
    enhance_with_products env r rec =
      (Except.ok r, [ApiCall.relatedSearch cui "SCD+SBD"]) := by
  unfold enhance_with_products
  rw [hcui]
  dsimp only
  rw [hp]
  rfl

theorem validate_no_penalty_high (env : MapperEnv) (r : MappingResult)
    (cui rn : String) (hcui : r.rxcui = some cui) (hrn : r.rxnorm_name = some rn)
    (hne1 : rn ≠ "") (hne2 : r.dci1 ≠ "")
    (hsim : pyLt (pyOfNat (env.fuzz_sim (pyUpper r.dci1) (pyUpper rn)))
        env.name_similarity_threshold = false)
    (hcomb : ¬ (pyIn "/" r.dci1 = true ∧ ¬ pyIn "/" rn = true))
    (hhigh : pyLe env.th_high r.confidence_score = true) :
    validate_mapping env r =
      { r with validation_notes :=
          r.validation_notes ++ ["HIGH confidence mapping"] } := by
  unfold validate_mapping
  rw [hcui]
  dsimp only
  simp only [hrn, Option.getD_some, ne_eq, hne1, hne2, not_false_iff, and_self,
    if_true, hsim, Bool.false_eq_true, if_false, hcomb, hhigh]
  rw [← hrn, hcui]

/-- C1 (amended): when the ingredient is non-empty and the direct exact
lookup hits, the resolver commits to strategy 1: the outcome is exactly
enhancement followed by validation of the strategy-1 record (method
`direct_exact`, confidence 0.9, matched name = the raw ingredient name,
not the terminology's canonical one), no translation lookup and no
approximate search is ever invoked, and whenever resolution returns
normally (the product-enhancement sort can raise on tied scores, see the
counterexample) the returned result still has method `direct_exact` and
a matched identifier. -/
theorem C1_direct_exact_amended (env : MapperEnv) (rec : CnopsRecord)
    (cui : String)
    (h0 : ¬ rec.dci1 = "") (h1 : env.search_by_name rec.dci1 = some cui) :
    (map_single_drug env rec).1 =
      (finish_stage env rec
        { init_result rec with
          rxcui := some cui, rxnorm_name := some rec.dci1,
          mapping_method := "direct_exact",
          confidence_score := pyRat 9 10 }).1 ∧
    (∀ c ∈ (map_single_drug env rec).2, isLowerStrategyCall c = false) ∧
    (∀ r', (map_single_drug env rec).1 = Except.ok r' →
      r'.mapping_method = "direct_exact" ∧ ∃ c2, r'.rxcui = some c2) := by
  have heq := map_single_drug_direct env rec cui h0 h1
  refine ⟨by rw [heq], ?_, ?_⟩
  · intro c hc
    rw [heq] at hc
    rcases List.mem_cons.mp hc with hceq | hcin
    · rw [hceq]; rfl
    · exact enhance_log_lower env _ rec c hcin
  · intro r' hok'
    rw [heq] at hok'
    dsimp only at hok'
    obtain ⟨hmeth, hsome, -⟩ := finish_stage_basic env rec _ r' cui rfl hok'
    exact ⟨hmeth, hsome⟩

/-- C1 counterexample: an exact hit whose related products tie on score
makes resolution raise a `TypeError` instead of returning a
`direct_exact` result. -/
theorem C1_counterexample :
    (map_single_drug tieEnvA recAmox).1 =
      Except.error
        "TypeError: < not supported between instances of dict and dict" := by
  decide

/-- C1 witness: concrete direct hit on IBUPROFEN. -/
theorem C1_direct_exact_witness :
    recIbu.dci1 = "IBUPROFEN" ∧
    envDirect.search_by_name recIbu.dci1 = some "5640" ∧
    ((map_single_drug envDirect recIbu).1 =
      (finish_stage envDirect recIbu
        { init_result recIbu with
          rxcui := some "5640", rxnorm_name := some recIbu.dci1,
          mapping_method := "direct_exact",
          confidence_score := pyRat 9 10 }).1 ∧
    (∀ c ∈ (map_single_drug envDirect recIbu).2, isLowerStrategyCall c = false) ∧
    (∀ r', (map_single_drug envDirect recIbu).1 = Except.ok r' →
      r'.mapping_method = "direct_exact" ∧ ∃ c2, r'.rxcui = some c2)) :=
  ⟨by decide, by decide,
   C1_direct_exact_amended envDirect recIbu "5640" (by decide) (by decide)⟩

/-- C2: when strategies 1 and 2 miss and the approximate search returns
candidates, the resolver accepts the top candidate exactly when its score
is at least 80, with method `fuzzy_high`, base confidence 0.6, the
remaining candidates stored as alternatives (so
`len(alternatives) = min(returned, 5) - 1` when the interface honours the
5-candidate bound), and a note recording the numeric score; below 80 no
match is accepted and all candidates are discarded. -/
theorem C2_fuzzy_threshold (env : MapperEnv) (rec : CnopsRecord)
    (best : Candidate) (rest : List Candidate)
    (h0 : ¬ rec.dci1 = "")
    (h1 : env.search_by_name rec.dci1 = none)
    (h2 : ∀ t, env.ingredient_translations (pyUpper rec.dci1) = some t →
      env.search_by_name t = none)
    (hm : env.approximate_search rec.dci1 5 = best :: rest) :
    (80 ≤ best.score →
      (map_single_drug env rec).1 =
        (finish_stage env rec
          { init_result rec with
            rxcui := some best.rxcui, rxnorm_name := some best.term,
            mapping_method := "fuzzy_high", confidence_score := pyRat 6 10,
            alternative_matches := rest,
            validation_notes :=
              ["Fuzzy match score: " ++ toString best.score] }).1 ∧
      (∀ r', (map_single_drug env rec).1 = Except.ok r' →
        r'.mapping_method = "fuzzy_high" ∧
        r'.alternative_matches = rest ∧
        ("Fuzzy match score: " ++ toString best.score) ∈ r'.validation_notes ∧
        ((best :: rest).length ≤ 5 →
          r'.alternative_matches.length = min (best :: rest).length 5 - 1))) ∧
    (best.score < 80 →
      (map_single_drug env rec).1 =
        Except.ok (validate_mapping env (init_result rec)) ∧
      (∀ r', (map_single_drug env rec).1 = Except.ok r' →
        r'.rxcui = none ∧ r'.mapping_method = "none" ∧
        r'.alternative_matches = [] ∧ r'.confidence_score = pyZero)) := by
  have hred := map_single_drug_to_fuzzy env rec h0 h1 h2
  constructor
  · intro hb
    have hacc := fuzzy_stage_accept env rec (init_result rec) best rest hm hb
    constructor
    · rw [hred, hacc]
      rfl
    · intro r' hok'
      rw [hred, hacc] at hok'
      dsimp only at hok'
      obtain ⟨hmeth, -, halts⟩ :=
        finish_stage_basic env rec _ r' best.rxcui rfl hok'
      refine ⟨hmeth, halts, ?_, ?_⟩
      · exact finish_stage_notes env rec _ r' _ (by simp) hok'
      · intro hlen
        rw [halts]
        simp only [List.length_cons] at hlen ⊢
        omega
  · intro hb
    have hrej := fuzzy_stage_reject env rec (init_result rec) best rest hm
      (by omega)
    constructor
    · rw [hred, hrej]
    · intro r' hok'
      rw [hred, hrej] at hok'
      dsimp only at hok'
      have hr' : r' = validate_mapping env (init_result rec) :=
        (Except.ok.inj hok').symm
      subst hr'
      refine ⟨?_, ?_, ?_, ?_⟩
      · rw [validate_mapping_rxcui]; rfl
      · rw [validate_mapping_method]; rfl
      · rw [validate_mapping_alts]; rfl
      · exact (validate_mapping_conf_none env (init_result rec) rfl).1

/-- C2 witness: concrete fuzzy search returning two candidates with top
score 85. -/
theorem C2_fuzzy_threshold_witness :
    envFuzzy.approximate_search recPara.dci1 5 =
      ({ rxcui := "161", term := "Acetaminophen", score := 85 } : Candidate) ::
        [{ rxcui := "162", term := "Other", score := 60 }] ∧
    ((80 ≤ (85 : Nat) →
      (map_single_drug envFuzzy recPara).1 =
        (finish_stage envFuzzy recPara
          { init_result recPara with
            rxcui := some "161", rxnorm_name := some "Acetaminophen",
            mapping_method := "fuzzy_high", confidence_score := pyRat 6 10,
            alternative_matches := [{ rxcui := "162", term := "Other", score := 60 }],
            validation_notes :=
              ["Fuzzy match score: " ++ toString (85 : Nat)] }).1 ∧
      (∀ r', (map_single_drug envFuzzy recPara).1 = Except.ok r' →
        r'.mapping_method = "fuzzy_high" ∧
        r'.alternative_matches = [{ rxcui := "162", term := "Other", score := 60 }] ∧
        ("Fuzzy match score: " ++ toString (85 : Nat)) ∈ r'.validation_notes ∧
        ((({ rxcui := "161", term := "Acetaminophen", score := 85 } : Candidate) ::
            [{ rxcui := "162", term := "Other", score := 60 }]).length ≤ 5 →
          r'.alternative_matches.length =
            min (({ rxcui := "161", term := "Acetaminophen", score := 85 } : Candidate) ::
              [{ rxcui := "162", term := "Other", score := 60 }]).length 5 - 1))) ∧
    ((85 : Nat) < 80 →
      (map_single_drug envFuzzy recPara).1 =
        Except.ok (validate_mapping envFuzzy (init_result recPara)) ∧
      (∀ r', (map_single_drug envFuzzy recPara).1 = Except.ok r' →
        r'.rxcui = none ∧ r'.mapping_method = "none" ∧
        r'.alternative_matches = [] ∧ r'.confidence_score = pyZero))) :=
  ⟨by decide,
   C2_fuzzy_threshold envFuzzy recPara
     { rxcui := "161", term := "Acetaminophen", score := 85 }
     [{ rxcui := "162", term := "Other", score := 60 }]
     (by decide) (by decide)
     (fun t ht => by simp [envFuzzy, stubEnv] at ht) (by decide)⟩

/-- C3: two products with equal scores make `_find_best_product_match`
raise a `TypeError` inside `scored_products.sort(reverse=True)` (tuple
comparison falls through to the unordered dicts) instead of selecting the
first product in input order, so the tie-break never happens and the
resolver fails on such ties. -/
theorem C3_tie_raises_typeerror :
    find_best_product_match stubEnv
      [{ rxcui := "100", name := "P1", tty := "SCD", synonym := "" },
       { rxcui := "200", name := "P2", tty := "SCD", synonym := "" }] " " "" =
      Except.error
        "TypeError: < not supported between instances of dict and dict" := by
  decide

/-- C4 (amended): on every resolution of a record with a non-empty
ingredient the returned result is the output of `_validate_mapping`, and
a returned result without a match carries confidence 0 and the
"No RxNorm mapping found" note; the empty-ingredient early return skips
validation (see the counterexample). -/
theorem C4_validation_amended (env : MapperEnv) (rec : CnopsRecord)
    (r : MappingResult) (hd : ¬ rec.dci1 = "")
    (hok : (map_single_drug env rec).1 = Except.ok r) :
    (∃ r0, r = validate_mapping env r0) ∧
    (r.rxcui = none →
      r.confidence_score = pyZero ∧
      "No RxNorm mapping found" ∈ r.validation_notes) := by
  obtain ⟨r2, hv, -⟩ := map_ok_cases env rec r hd hok
  refine ⟨⟨r2, hv⟩, ?_⟩
  intro hnone
  have hr2 : r2.rxcui = none := by
    rw [hv, validate_mapping_rxcui] at hnone
    exact hnone
  rw [hv]
  exact validate_mapping_conf_none env r2 hr2

/-- C4 counterexample: the empty-ingredient result is returned without
the validation step, so it has no match yet lacks the
"No RxNorm mapping found" note (and no confidence-tier note either). -/
theorem C4_counterexample :
    (map_single_drug stubEnv recEmptyD).1 = Except.ok resEmptyD ∧
    resEmptyD.rxcui = none ∧
    (resEmptyD.validation_notes.contains "No RxNorm mapping found") = false :=
  ⟨by decide, by decide, by decide⟩

/-- C4 witness: a non-empty ingredient that matches nothing is validated
and carries the forced zero score and the note. -/
theorem C4_validation_witness :
    recX.dci1 = "XYZ" ∧
    (map_single_drug stubEnv recX).1 = Except.ok resX ∧
    ((∃ r0, resX = validate_mapping stubEnv r0) ∧
     (resX.rxcui = none →
       resX.confidence_score = pyZero ∧
       "No RxNorm mapping found" ∈ resX.validation_notes)) :=
  ⟨by decide, by decide,
   C4_validation_amended stubEnv recX resX (by decide) (by decide)⟩

/-- C5: every result returned by resolution satisfies the invariant: a
matched identifier is present exactly when the method tag is neither
`none` nor `error`, and the confidence score is zero exactly when the
identifier is absent (given positive configured penalty factors). -/
theorem C5_invariant (env : MapperEnv) (rec : CnopsRecord) (r : MappingResult)
    (hok : (map_single_drug env rec).1 = Except.ok r)
    (hp1 : pyLt pyZero env.form_mismatch_penalty = true)
    (hp2 : pyLt pyZero env.combination_drug_penalty = true) :
    ((∃ c, r.rxcui = some c) ↔
      (r.mapping_method ≠ "none" ∧ r.mapping_method ≠ "error")) ∧
    (r.confidence_score = pyZero ↔ r.rxcui = none) := by
  have hp1' : 0 < env.form_mismatch_penalty.num := (pyLt_zero_iff _).mp hp1
  have hp2' : 0 < env.combination_drug_penalty.num := (pyLt_zero_iff _).mp hp2
  by_cases hd : rec.dci1 = ""
  · have hmap := map_single_drug_empty env rec hd
    have hr : r = { init_result rec with
        validation_notes := ["No DCI1 ingredient specified"] } := by
      have h1 : (map_single_drug env rec).1 =
          Except.ok { init_result rec with
            validation_notes := ["No DCI1 ingredient specified"] } := by
        rw [hmap]
      rw [h1] at hok
      exact (Except.ok.inj hok).symm
    subst hr
    refine ⟨⟨?_, ?_⟩, fun _ => rfl, fun _ => rfl⟩
    · rintro ⟨c, hc⟩
      exact Option.noConfusion hc
    · rintro ⟨hA, -⟩
      exact absurd rfl hA
  · obtain ⟨r2, hv, hcase⟩ := map_ok_cases env rec r hd hok
    rcases hcase with hinit | ⟨cui, hcui, hconf, hm1, hm2⟩
    · subst hinit
      have hnone : r.rxcui = none := by rw [hv, validate_mapping_rxcui]; rfl
      have hmeth : r.mapping_method = "none" := by
        rw [hv, validate_mapping_method]; rfl
      have hcz : r.confidence_score = pyZero := by
        rw [hv]
        exact (validate_mapping_conf_none env _ rfl).1
      refine ⟨⟨?_, ?_⟩, fun _ => hnone, fun _ => hcz⟩
      · rintro ⟨c, hc⟩
        rw [hnone] at hc
        exact Option.noConfusion hc
      · rintro ⟨hA, -⟩
        exact absurd hmeth hA
    · have hsome : r.rxcui = some cui := by
        rw [hv, validate_mapping_rxcui]; exact hcui
      have hmeth : r.mapping_method = r2.mapping_method := by
        rw [hv, validate_mapping_method]
      have hcpos : 0 < r.confidence_score.num := by
        rw [hv]
        exact validate_mapping_conf_pos env r2 cui hcui hconf hp1' hp2'
      refine ⟨⟨fun _ => ⟨by rw [hmeth]; exact hm1, by rw [hmeth]; exact hm2⟩,
        fun _ => ⟨cui, hsome⟩⟩, ?_, ?_⟩
      · intro hzero
        rw [hzero] at hcpos
        exact absurd hcpos (by decide)
      · intro habs
        rw [hsome] at habs
        exact Option.noConfusion habs

/-- C5 witness: the concrete direct-hit result satisfies the invariant. -/
theorem C5_invariant_witness :
    (map_single_drug envDirect recIbu).1 = Except.ok resIbu ∧
    pyLt pyZero envDirect.form_mismatch_penalty = true ∧
    (((∃ c, resIbu.rxcui = some c) ↔
      (resIbu.mapping_method ≠ "none" ∧ resIbu.mapping_method ≠ "error")) ∧
     (resIbu.confidence_score = pyZero ↔ resIbu.rxcui = none)) :=
  ⟨by decide, by decide,
   C5_invariant envDirect recIbu resIbu (by decide) (by decide) (by decide)⟩

/-- C6: a record with an empty ingredient field is answered immediately
with method `none`, confidence 0, the "No DCI1 ingredient specified"
note, and an empty call log — no terminology-interface call and no
translation lookup is made. -/
theorem C6_empty_ingredient (env : MapperEnv) (rec : CnopsRecord)
    (h : rec.dci1 = "") :
    ∃ r : MappingResult,
      map_single_drug env rec = (Except.ok r, []) ∧
      r.mapping_method = "none" ∧ r.confidence_score = pyZero ∧
      r.rxcui = none ∧
      r.validation_notes = ["No DCI1 ingredient specified"] :=
  ⟨_, map_single_drug_empty env rec h, rfl, rfl, rfl, rfl⟩

/-- C6 witness: concrete empty-ingredient record. -/
theorem C6_empty_ingredient_witness :
    recEmptyD.dci1 = "" ∧
    (∃ r : MappingResult,
      map_single_drug stubEnv recEmptyD = (Except.ok r, []) ∧
      r.mapping_method = "none" ∧ r.confidence_score = pyZero ∧
      r.rxcui = none ∧
      r.validation_notes = ["No DCI1 ingredient specified"]) :=
  ⟨rfl, C6_empty_ingredient stubEnv recEmptyD rfl⟩

/-- C7: for a matched result whose name-similarity ratio is below the
configured threshold, validation multiplies the confidence score by the
configured form-mismatch penalty (absent the combination penalty, the
final score is exactly the base score times the penalty — the tier note
appended afterwards never changes the score) and appends a note with the
measured similarity. -/
theorem C7_similarity_penalty (env : MapperEnv) (r : MappingResult)
    (cui rn : String) (hcui : r.rxcui = some cui) (hrn : r.rxnorm_name = some rn)
    (hne1 : rn ≠ "") (hne2 : r.dci1 ≠ "")
    (hsim : pyLt (pyOfNat (env.fuzz_sim (pyUpper r.dci1) (pyUpper rn)))
        env.name_similarity_threshold = true)
    (hcomb : ¬ (pyIn "/" r.dci1 = true ∧ ¬ pyIn "/" rn = true)) :
    (validate_mapping env r).confidence_score =
      pyMul r.confidence_score env.form_mismatch_penalty ∧
    ("Low name similarity: " ++
      toString (env.fuzz_sim (pyUpper r.dci1) (pyUpper rn)) ++ "%")
      ∈ (validate_mapping env r).validation_notes := by
  unfold validate_mapping
  rw [hcui]
  dsimp only
  simp only [hrn, Option.getD_some, ne_eq, hne1, hne2, not_false_iff, and_self,
    if_true, hsim, hcomb, if_false]
  exact ⟨trivial, by simp⟩

/-- C7 witness: concrete matched result with similarity 10 against
threshold 70 and penalty 0.7. -/
theorem C7_similarity_penalty_witness :
    rMatchC7.rxcui = some "77" ∧
    pyLt (pyOfNat (envLowSim.fuzz_sim (pyUpper rMatchC7.dci1) (pyUpper "BETA")))
      envLowSim.name_similarity_threshold = true ∧
    ((validate_mapping envLowSim rMatchC7).confidence_score =
      pyMul rMatchC7.confidence_score envLowSim.form_mismatch_penalty ∧
     ("Low name similarity: " ++
       toString (envLowSim.fuzz_sim (pyUpper rMatchC7.dci1) (pyUpper "BETA")) ++
       "%") ∈ (validate_mapping envLowSim rMatchC7).validation_notes) :=
  ⟨by decide, by decide,
   C7_similarity_penalty envLowSim rMatchC7 "77" "BETA" (by decide) (by decide)
     (by decide) (by decide) (by decide) (by decide)⟩

/-- C8: the batch loop emits exactly one row per input record in input
order, and any record whose resolution raises is caught and serialized as
a row with method `error`, confidence 0, and the exception description in
the notes — later records are unaffected since each row depends only on
its own record. -/
theorem C8_batch_error_isolation (env : MapperEnv) (recs : List CnopsRecord) :
    (process_file env recs).length = recs.length ∧
    (∀ j : Nat, (process_file env recs)[j]? = (recs[j]?).map (process_row env)) ∧
    (∀ rec e, (map_single_drug env rec).1 = Except.error e →
      process_row env rec =
        { cnops_code := rec.code, original_name := rec.nom, dci1 := rec.dci1,
          rxcui := none, rxnorm_name := none, confidence_score := pyZero,
          mapping_method := "error", validation_notes := "Error: " ++ e,
          alternatives_count := 0 }) := by
  refine ⟨List.length_map _ _, fun j => List.getElem?_map _ _ _, ?_⟩
  intro rec e he
  unfold process_row
  rw [he]

/-- C8 witness: a one-record batch whose single resolution raises is
serialized as an error row preserving the message. -/
theorem C8_batch_witness :
    (map_single_drug tieEnvA recAmox).1 =
      Except.error
        "TypeError: < not supported between instances of dict and dict" ∧
    (process_file tieEnvA [recAmox]).length = [recAmox].length ∧
    process_row tieEnvA recAmox =
      { cnops_code := "C001", original_name := "AMOX CAP",
        dci1 := "AMOXICILLINE", rxcui := none, rxnorm_name := none,
        confidence_score := pyZero, mapping_method := "error",
        validation_notes :=
          "Error: TypeError: < not supported between instances of dict and dict",
        alternatives_count := 0 } :=
  ⟨by decide, (C8_batch_error_isolation tieEnvA [recAmox]).1,
   (C8_batch_error_isolation tieEnvA [recAmox]).2.2 recAmox
     "TypeError: < not supported between instances of dict and dict" (by decide)⟩

/-- C9: the aspirin scenario — exact search misses the raw name, the
translation table maps it to aspirin, the exact search on aspirin returns
1191, the related-concept query returns nothing, and the name-similarity
penalty does not fire — resolves to matched id 1191, matched name
aspirin, method `translated_exact`, confidence 0.8, with the translation
note and (for thresholds where 0.8 is high) the high-confidence tier
note. -/
theorem C9_aspirin_scenario (env : MapperEnv) (rec : CnopsRecord)
    (hrec : rec.dci1 = "ACIDE ACETYLSALICYLIQUE")
    (h1 : env.search_by_name "ACIDE ACETYLSALICYLIQUE" = none)
    (h2 : env.ingredient_translations "ACIDE ACETYLSALICYLIQUE" = some "aspirin")
    (h3 : env.search_by_name "aspirin" = some "1191")
    (h4 : env.get_related_concepts "1191" "SCD+SBD" = [])
    (h5 : pyLt (pyOfNat (env.fuzz_sim "ACIDE ACETYLSALICYLIQUE" "ASPIRIN"))
        env.name_similarity_threshold = false)
    (h6 : pyLe env.th_high (pyRat 8 10) = true) :
    ∃ r, (map_single_drug env rec).1 = Except.ok r ∧
      r.rxcui = some "1191" ∧ r.rxnorm_name = some "aspirin" ∧
      r.mapping_method = "translated_exact" ∧
      r.confidence_score = pyRat 8 10 ∧
      "Used translation: ACIDE ACETYLSALICYLIQUE -> aspirin"
        ∈ r.validation_notes ∧
      "HIGH confidence mapping" ∈ r.validation_notes := by
  have h0 : ¬ rec.dci1 = "" := by rw [hrec]; decide
  have hup : pyUpper rec.dci1 = "ACIDE ACETYLSALICYLIQUE" := by rw [hrec]; decide
  have heq := map_single_drug_translated env rec "aspirin" "1191" h0
    (by rw [hrec]; exact h1) (by rw [hup]; exact h2) h3
  have hval := validate_no_penalty_high env
    { init_result rec with
      rxcui := some "1191", rxnorm_name := some "aspirin",
      mapping_method := "translated_exact", confidence_score := pyRat 8 10,
      validation_notes :=
        ["Used translation: " ++ rec.dci1 ++ " -> " ++ "aspirin"] }
    "1191" "aspirin" rfl rfl (by decide) h0
    (show pyLt (pyOfNat (env.fuzz_sim (pyUpper rec.dci1) (pyUpper "aspirin")))
        env.name_similarity_threshold = false by
      rw [hup, (by decide : pyUpper "aspirin" = "ASPIRIN")]
      exact h5)
    (show ¬ (pyIn "/" rec.dci1 = true ∧ ¬ pyIn "/" "aspirin" = true) by
      rw [hrec]; decide)
    (show pyLe env.th_high (pyRat 8 10) = true from h6)
  have hfe : (finish_stage env rec
      { init_result rec with
        rxcui := some "1191", rxnorm_name := some "aspirin",
        mapping_method := "translated_exact", confidence_score := pyRat 8 10,
        validation_notes :=
          ["Used translation: " ++ rec.dci1 ++ " -> " ++ "aspirin"] }).1 =
      Except.ok (validate_mapping env
        { init_result rec with
          rxcui := some "1191", rxnorm_name := some "aspirin",
          mapping_method := "translated_exact", confidence_score := pyRat 8 10,
          validation_notes :=
            ["Used translation: " ++ rec.dci1 ++ " -> " ++ "aspirin"] }) := by
    unfold finish_stage
    dsimp only
    rw [enhance_no_products env _ rec "1191" rfl h4]
  refine ⟨validate_mapping env
    { init_result rec with
      rxcui := some "1191", rxnorm_name := some "aspirin",
      mapping_method := "translated_exact", confidence_score := pyRat 8 10,
      validation_notes :=
        ["Used translation: " ++ rec.dci1 ++ " -> " ++ "aspirin"] },
    ?_, ?_, ?_, ?_, ?_, ?_, ?_⟩
  · rw [heq]
    exact hfe
  · rw [hval]
  · rw [hval]
  · rw [hval]
  · rw [hval]
  · rw [hval]
    show "Used translation: ACIDE ACETYLSALICYLIQUE -> aspirin" ∈
      ["Used translation: " ++ rec.dci1 ++ " -> " ++ "aspirin"] ++
        ["HIGH confidence mapping"]
    rw [hrec]
    decide
  · rw [hval]
    show "HIGH confidence mapping" ∈
      ["Used translation: " ++ rec.dci1 ++ " -> " ++ "aspirin"] ++
        ["HIGH confidence mapping"]
    simp

/-- C9 witness: concrete environment realizing the aspirin scenario. -/
theorem C9_aspirin_witness :
    recAsp.dci1 = "ACIDE ACETYLSALICYLIQUE" ∧
    envAsp.ingredient_translations "ACIDE ACETYLSALICYLIQUE" = some "aspirin" ∧
    envAsp.search_by_name "aspirin" = some "1191" ∧
    (∃ r, (map_single_drug envAsp recAsp).1 = Except.ok r ∧
      r.rxcui = some "1191" ∧ r.rxnorm_name = some "aspirin" ∧
      r.mapping_method = "translated_exact" ∧
      r.confidence_score = pyRat 8 10 ∧
      "Used translation: ACIDE ACETYLSALICYLIQUE -> aspirin"
        ∈ r.validation_notes ∧
      "HIGH confidence mapping" ∈ r.validation_notes) :=
  ⟨by decide, by decide, by decide,
   C9_aspirin_scenario envAsp recAsp (by decide) (by decide) (by decide)
     (by decide) (by decide) (by decide) (by decide)⟩

/-- C10 (amended): whenever the related-concept query for a matched
result returns a non-empty product list on which the score-sort does not
raise (no two distinct products tie on score), a product is always
selected — best scorer, else first SCD, else first candidate — so the
matched id and name are replaced by a product's and the confidence gains
exactly +0.1; in particular a 0.9 direct-exact score becomes exactly 1.
On tied scores the sort raises instead and nothing is selected (see the
counterexample). -/
theorem C10_enhancement_amended (env : MapperEnv) (r : MappingResult)
    (rec : CnopsRecord) (cui : String) (hcui : r.rxcui = some cui)
    (hne : env.get_related_concepts cui "SCD+SBD" ≠ [])
    (htie : hasTieConflict
      ((env.get_related_concepts cui "SCD+SBD").map
        (fun p => (productScore env p
          (rec.dosage1 ++ " " ++ rec.unite_dosage1) rec.forme, p))) = false) :
    ∃ p, p ∈ env.get_related_concepts cui "SCD+SBD" ∧
      (enhance_with_products env r rec).1 = Except.ok
        { r with
          rxcui := some p.rxcui, rxnorm_name := some p.name,
          confidence_score := pyAdd r.confidence_score (pyRat 1 10),
          validation_notes :=
            r.validation_notes ++ ["Enhanced with specific product"] } ∧
      (r.confidence_score = pyRat 9 10 →
        pyAdd r.confidence_score (pyRat 1 10) = pyRat 1 1) := by
  obtain ⟨p, hp, hfb⟩ := find_best_some env
    (env.get_related_concepts cui "SCD+SBD")
    (rec.dosage1 ++ " " ++ rec.unite_dosage1) rec.forme hne htie
  have hemp : (env.get_related_concepts cui "SCD+SBD").isEmpty = false := by
    cases hpr : env.get_related_concepts cui "SCD+SBD" with
    | nil => exact absurd hpr hne
    | cons a b => rfl
  refine ⟨p, hp, ?_, ?_⟩
  · unfold enhance_with_products
    rw [hcui]
    dsimp only
    simp only [hemp, Bool.false_eq_true, if_false]
    rw [hfb]
  · intro h9
    rw [h9]
    decide

/-- C10 counterexample: a non-empty product list with two tying products
makes enhancement raise, so no product is selected and no +0.1 bonus is
applied. -/
theorem C10_counterexample :
    (tieEnvB.get_related_concepts "42" "SCD+SBD").length = 2 ∧
    (enhance_with_products tieEnvB rMatchB recB).1 =
      Except.error
        "TypeError: < not supported between instances of dict and dict" :=
  ⟨by decide, by decide⟩

/-- C10 witness: two products with distinct scores (80 and 30) are sorted
without raising and the best scorer is selected with the +0.1 bonus. -/
theorem C10_enhancement_witness :
    rMatchB.rxcui = some "42" ∧
    (envC10w.get_related_concepts "42" "SCD+SBD").length = 2 ∧
    hasTieConflict ((envC10w.get_related_concepts "42" "SCD+SBD").map
      (fun p => (productScore envC10w p
        (recC10w.dosage1 ++ " " ++ recC10w.unite_dosage1) recC10w.forme, p))) =
      false ∧
    (∃ p, p ∈ envC10w.get_related_concepts "42" "SCD+SBD" ∧
      (enhance_with_products envC10w rMatchB recC10w).1 = Except.ok
        { rMatchB with
          rxcui := some p.rxcui, rxnorm_name := some p.name,
          confidence_score := pyAdd rMatchB.confidence_score (pyRat 1 10),
          validation_notes :=
            rMatchB.validation_notes ++ ["Enhanced with specific product"] } ∧
      (rMatchB.confidence_score = pyRat 9 10 →
        pyAdd rMatchB.confidence_score (pyRat 1 10) = pyRat 1 1)) :=
  ⟨by decide, by decide, by decide,
   C10_enhancement_amended envC10w rMatchB recC10w "42" (by decide) (by decide)
     (by decide)⟩
